import Mathlib

/-!
Verification of the Agent Session Streaming Orchestrator
(`server/routers/agent.py` and `server/services/agent.py`).

The Python source is shallowly embedded: the normalizer loop body of
`stream_agent_response` becomes `normalizeMessage`, the `stream_and_store`
generator of the router becomes a pure function from the consumed event
sequence (plus an optional mid-stream exception and an optional persistence
failure point) to the emitted frame list and the trace of storage operations,
and `invoke_agent` becomes the dispatcher over project / conversation
resolution.  The storage, backup and user collaborators
(`services/storage.py`, `services/backup_manager.py`, `services/user.py`)
are not part of the sources and are modelled from the spec where needed.

Python dicts with string keys are modelled as association lists
(`List (String × String)`), `dict.get` as first-match lookup, and Python
truthiness of `Optional[str]` values (`None` and `''` are falsy) and of
dicts (empty is falsy) is made explicit.
-/

/-- Python `dict.get(key)` on a string-valued dict modelled as an
association list: the value at the first matching key, else `none`. -/
def dictGet (d : List (String × String)) (key : String) : Option String :=
  match d with
  | [] => none
  | (k, v) :: rest => if k = key then some v else dictGet rest key

/-- Python truthiness of an `Optional[str]`: `None` and `''` are falsy. -/
def optTruthy (o : Option String) : Bool :=
  match o with
  | none => false
  | some s => s ≠ ""

/-- Python truthiness of an optional dict: `None` and `{}` are falsy. -/
def dataTruthy (d : Option (List (String × String))) : Bool :=
  match d with
  | none => false
  | some l => l ≠ []

/-- A normalized event dict as yielded by `stream_agent_response` and
consumed by `stream_and_store` (the `type` key is the constructor).
The `error` payload is `none` when the `error` key is absent from the
dict, in which case the router's `event.get('error', 'Unknown error')`
falls back to the default. -/
inductive AgentEvent where
  | text (t : String)
  | thinking (t : String)
  | toolUse (toolId toolName toolInput : String)
  | toolResult (toolUseId content : String) (isError : Bool)
  | result (sessionId : Option String) (isError : Bool)
  | error (e : Option String)
  | system (subtype : String) (data : Option (List (String × String)))
  | streamEvent (event : String) (sessionId : Option String)
  deriving DecidableEq, Repr

/-- A content block inside a native `AssistantMessage`
(`claude_code_sdk.types`).  `unknownBlock` stands for any block type that
is none of the four `isinstance` branches of the normalizer. -/
inductive ContentBlock where
  | textBlock (t : String)
  | thinkingBlock (t : String)
  | toolUseBlock (id name input : String)
  | toolResultBlock (toolUseId content : String) (isError : Bool)
  | unknownBlock (tag : String)
  deriving DecidableEq, Repr

/-- A native runtime message as handled by the `isinstance` dispatch in
`stream_agent_response`.  `unknown` stands for any message type matching
none of the branches (e.g. a variant added by a runtime upgrade);
`systemMsg`'s `data` is `none` when the object has no `data` attribute
(the `hasattr` check). -/
inductive NativeMessage where
  | assistantMsg (content : List ContentBlock)
  | resultMsg (sessionId : Option String) (isError : Bool)
  | systemMsg (subtype : String) (data : Option (List (String × String)))
  | userMsg
  | streamEventMsg (event : String) (sessionId : Option String)
  | unknown (tag : String)
  deriving DecidableEq, Repr

/-- Normalization of one assistant content block: the body of the inner
`for block in msg.content` loop of `stream_agent_response`.  A block that
matches no `isinstance` branch yields nothing. -/
def normalizeBlock (b : ContentBlock) : List AgentEvent :=
  match b with
  | .textBlock t => [.text t]
  | .thinkingBlock t => [.thinking t]
  | .toolUseBlock id name input => [.toolUse id name input]
  | .toolResultBlock tuid content isErr => [.toolResult tuid content isErr]
  | .unknownBlock _ => []

/-- Normalization of one native message: the body of the
`async for msg in query(...)` loop of `stream_agent_response`
(`server/services/agent.py`, lines 110-166).  The first component is the
list of event dicts yielded for the message; the second is the list of
warning messages logged while handling it — the source dispatch contains
no logging call, so it is `[]` on every branch.  A message matching no
`isinstance` branch falls through the dispatch and yields nothing. -/
def normalizeMessage (msg : NativeMessage) : List AgentEvent × List String :=
  match msg with
  | .assistantMsg blocks => (blocks.foldr (fun b acc => normalizeBlock b ++ acc) [], [])
  | .resultMsg sid isErr => ([.result sid isErr], [])
  | .systemMsg subtype data => ([.system subtype data], [])
  | .userMsg => ([], [])
  | .streamEventMsg ev sid => ([.streamEvent ev sid], [])
  | .unknown _ => ([], [])

/-- A wire frame of the outbound SSE stream: the structured payload of one
`sse_event(...)` emission of the router (`server/routers/agent.py`), with
`done` standing for the literal terminal sentinel `data: [DONE]`.  The
`errorFrame` `message` component is `some m` when the dict carries a
`message` key (the `create_error_stream` frames) and `none` when it does
not (the in-stream error frames). -/
inductive Frame where
  | conversationCreated (conversationId : String)
  | textFrame (t : String)
  | thinkingFrame (t : String)
  | toolUseFrame (toolId toolName toolInput : String)
  | toolResultFrame (toolUseId content : String) (isError : Bool)
  | resultFrame (sessionId : Option String) (isError : Bool)
  | errorFrame (error : String) (message : Option String)
  | systemFrame (subtype : String) (data : Option (List (String × String)))
  | streamCompleted (isError : Bool)
  | done
  deriving DecidableEq, Repr

/-- The mutable local state of the `stream_and_store` event loop
(`server/routers/agent.py`, lines 115-118), plus the frames emitted so
far. -/
structure LoopState where
  frames : List Frame
  finalText : String
  newSessionId : Option String
  errorMessage : Option String
  deriving DecidableEq, Repr

/-- Loop state at entry: no frames, `final_text = ''`,
`new_session_id = None`, `error_message = None`. -/
def initLoopState : LoopState := ⟨[], "", none, none⟩

/-- One iteration of the `async for event in stream_agent_response(...)`
loop of `stream_and_store` (`server/routers/agent.py`, lines 122-181).
An event whose `type` matches no branch (such as `stream_event`) is
ignored: no frame, no state change.  In the `system` branch the guard is
`event.get('subtype') == 'init' and data and not new_session_id`, with
Python truthiness of the dict `data` and of the `Optional[str]`
`new_session_id` made explicit; the captured candidate is
`data.get('session_id')`. -/
def handleEvent (st : LoopState) (ev : AgentEvent) : LoopState :=
  match ev with
  | .text t =>
      { st with finalText := st.finalText ++ t,
                frames := st.frames ++ [.textFrame t] }
  | .thinking t => { st with frames := st.frames ++ [.thinkingFrame t] }
  | .toolUse toolId toolName toolInput =>
      { st with frames := st.frames ++ [.toolUseFrame toolId toolName toolInput] }
  | .toolResult tuid content isErr =>
      { st with frames := st.frames ++ [.toolResultFrame tuid content isErr] }
  | .result sid isErr =>
      { st with newSessionId := sid,
                frames := st.frames ++ [.resultFrame sid isErr] }
  | .error e =>
      let msg := e.getD "Unknown error"
      { st with errorMessage := some msg,
                frames := st.frames ++ [.errorFrame msg none] }
  | .system subtype data =>
      let st' :=
        if subtype = "init" ∧ dataTruthy data = true ∧ optTruthy st.newSessionId = false
        then { st with newSessionId := dictGet (data.getD []) "session_id" }
        else st
      { st' with frames := st'.frames ++ [.systemFrame subtype data] }
  | .streamEvent _ _ => st

/-- The whole event loop: fold `handleEvent` over the consumed event
sequence. -/
def runLoop (st : LoopState) (events : List AgentEvent) : LoopState :=
  events.foldl handleEvent st

/-- One boundary call on the storage / backup collaborators, as recorded
in the order the orchestrator issues them. -/
inductive StorageOp where
  | createConversation (title : String)
  | addMessage (conversationId : String) (role : String) (content : String)
      (isError : Option Bool)
  | updateSessionId (conversationId : String) (sessionId : String)
  | updateClusterId (conversationId : String) (clusterId : String)
  | markForBackup (projectId : String)
  deriving DecidableEq, Repr

/-- Run a list of guarded storage operations, the body of the persistence
`try` block: an operation whose guard is false is skipped (its `if` in the
source is not entered); `failAt = some k` makes the k-th attempted
operation raise, which aborts every later operation of the block (the
exception is caught by the surrounding `except`, lines 223-224). -/
def runOps (failAt : Option Nat) (counter : Nat) : List (Bool × StorageOp) → List StorageOp
  | [] => []
  | (cond, op) :: rest =>
      if cond then
        if failAt = some counter then []
        else op :: runOps failAt (counter + 1) rest
      else runOps failAt counter rest

/-- Python truthiness of a `str`: `''` is falsy. -/
def strTruthy (s : String) : Bool := s ≠ ""

/-- What one invocation of the `stream_and_store` generator produces: the
frames sent to the client, in order, and the storage operations that
completed. -/
structure StreamResult where
  frames : List Frame
  ops : List StorageOp
  deriving DecidableEq, Repr

/-- The `stream_and_store` generator (`server/routers/agent.py`, lines
110-231) as a pure function.  `events` is the sequence of normalized
event dicts actually pulled from `stream_agent_response`; `exc = some s`
models an exception with text `s` raised by the iteration after those
events (caught at line 183: it records the error message and emits an
error frame); `failAt` injects a failure into the persistence block as in
`runOps`.  The guards mirror the source's truthiness tests:
`if final_text or error_message`, `if new_session_id`,
`if body.cluster_id`; the assistant content is
`final_text if final_text else f'Error: {error_message}'` and its error
flag, like the `stream.completed` flag, is `error_message is not None`. -/
def stream_and_store (conversationId message : String) (clusterId : Option String)
    (projectId : String) (events : List AgentEvent) (exc : Option String)
    (failAt : Option Nat) : StreamResult :=
  let st := runLoop initLoopState events
  let stF : LoopState := match exc with
    | some s => { st with errorMessage := some s,
                          frames := st.frames ++ [Frame.errorFrame s none] }
    | none => st
  let content := if strTruthy stF.finalText then stF.finalText
                 else "Error: " ++ stF.errorMessage.getD ""
  let ops := runOps failAt 0
    [ (true, .addMessage conversationId "user" message none),
      (strTruthy stF.finalText || optTruthy stF.errorMessage,
        .addMessage conversationId "assistant" content (some stF.errorMessage.isSome)),
      (optTruthy stF.newSessionId,
        .updateSessionId conversationId (stF.newSessionId.getD "")),
      (optTruthy clusterId, .updateClusterId conversationId (clusterId.getD "")),
      (true, .markForBackup projectId) ]
  { frames := .conversationCreated conversationId ::
      stF.frames ++ [.streamCompleted stF.errorMessage.isSome, .done],
    ops := ops }

/-- A persisted message row (role, content, error flag as passed to
`addMessage`; `isError = none` when the argument was not supplied). -/
structure Msg where
  role : String
  content : String
  isError : Option Bool
  deriving DecidableEq, Repr

/-- The observable state of one conversation's storage plus the backup
queue. -/
structure ConvStore where
  sessionId : Option String
  clusterId : Option String
  messages : List Msg
  backupQueue : List String
  deriving DecidableEq, Repr

/-- Modelled from the spec: the effect of one boundary call on storage
(`services/storage.py` and `services/backup_manager.py` are not among the
sources).  Per §6, `addMessage` appends a message row,
`updateSessionToken` and `updateClusterId` overwrite the conversation's
fields wholesale, and `BackupSignal.markDirty` only enqueues the project
id (fire-and-forget). -/
def applyOp (s : ConvStore) (op : StorageOp) : ConvStore :=
  match op with
  | .createConversation _ => s
  | .addMessage _ role content isErr =>
      { s with messages := s.messages ++ [⟨role, content, isErr⟩] }
  | .updateSessionId _ sid => { s with sessionId := some sid }
  | .updateClusterId _ cid => { s with clusterId := some cid }
  | .markForBackup pid => { s with backupQueue := s.backupQueue ++ [pid] }

/-- Apply a trace of storage operations in order. -/
def applyOps (s : ConvStore) (ops : List StorageOp) : ConvStore :=
  ops.foldl applyOp s

/-- Is this event an error event? -/
def isErrorEv : AgentEvent → Bool
  | .error _ => true
  | _ => false

/-- Is this event a terminal result event? -/
def isResultEv : AgentEvent → Bool
  | .result _ _ => true
  | _ => false

/-- Is this event a system event with subtype `init`? -/
def isInitSystemEv : AgentEvent → Bool
  | .system subtype _ => subtype = "init"
  | _ => false

/-- Specification-level "an error occurred during the turn": the
iteration raised, or some error event was observed. -/
def errOccurred (events : List AgentEvent) (exc : Option String) : Bool :=
  exc.isSome || events.any isErrorEv

/-- How one event updates the transcript buffer: text fragments are
appended, every other event leaves it unchanged. -/
def textStep (a : String) (e : AgentEvent) : String :=
  match e with
  | .text t => a ++ t
  | _ => a

/-- Specification-level transcript buffer: concatenation of all text
fragments of the event sequence, in order. -/
def accumText (events : List AgentEvent) : String :=
  events.foldl textStep ""

/-- How one event updates the latest error message: an error event
overwrites it (with the `'Unknown error'` default for an absent payload),
every other event leaves it unchanged. -/
def errStep (a : Option String) (e : AgentEvent) : Option String :=
  match e with
  | .error m => some (m.getD "Unknown error")
  | _ => a

/-- Specification-level latest error message: the exception text if the
iteration raised, else the result of folding `errStep` over the events. -/
def lastErrMsg (events : List AgentEvent) (exc : Option String) : Option String :=
  match exc with
  | some s => some s
  | none => events.foldl errStep none

/-- How one event updates the session-token candidate: a result event
overwrites it with its `session_id` value; a system/init event with a
truthy data dict captures `data.get('session_id')` when the current
candidate is falsy; every other event leaves it unchanged. -/
def sessStep (a : Option String) (e : AgentEvent) : Option String :=
  match e with
  | .result sid _ => sid
  | .system subtype data =>
      if subtype = "init" ∧ dataTruthy data = true ∧ optTruthy a = false
      then dictGet (data.getD []) "session_id"
      else a
  | _ => a

/-- The session-token candidate accumulated over an event sequence. -/
def sessionCandidate (events : List AgentEvent) : Option String :=
  events.foldl sessStep none

/-- The frames the loop emits for one event (a function of the event
alone). -/
def framesOfEvent (e : AgentEvent) : List Frame :=
  match e with
  | .text t => [.textFrame t]
  | .thinking t => [.thinkingFrame t]
  | .toolUse toolId toolName toolInput => [.toolUseFrame toolId toolName toolInput]
  | .toolResult tuid content isErr => [.toolResultFrame tuid content isErr]
  | .result sid isErr => [.resultFrame sid isErr]
  | .error m => [.errorFrame (m.getD "Unknown error") none]
  | .system subtype data => [.systemFrame subtype data]
  | .streamEvent _ _ => []

/-- The error frame the exception handler emits, if the iteration
raised. -/
def excFrames (exc : Option String) : List Frame :=
  match exc with
  | some s => [.errorFrame s none]
  | none => []

/-- Is this frame the `stream.completed` frame? -/
def isStreamCompletedFrame : Frame → Bool
  | .streamCompleted _ => true
  | _ => false

/-- Is this frame the terminal sentinel? -/
def isDoneFrame : Frame → Bool
  | .done => true
  | _ => false

/-- Is this frame a `conversation.created` frame? -/
def isConvCreatedFrame : Frame → Bool
  | .conversationCreated _ => true
  | _ => false

/-- Is this operation `addMessage` with role `user`? -/
def isUserAddOp : StorageOp → Bool
  | .addMessage _ role _ _ => role = "user"
  | _ => false

/-- Is this operation `addMessage` with role `assistant`? -/
def isAssistantAddOp : StorageOp → Bool
  | .addMessage _ role _ _ => role = "assistant"
  | _ => false

/-- Is this operation a session-token update? -/
def isUpdateSessionOp : StorageOp → Bool
  | .updateSessionId _ _ => true
  | _ => false

/-- A conversation row as returned by the storage collaborator
(`server/db/models.py`: id, title, session token, cluster reference). -/
structure Conversation where
  id : String
  title : String
  sessionId : Option String
  clusterId : Option String
  deriving DecidableEq, Repr

/-- The request body of `POST /invoke_agent`. -/
structure InvokeAgentRequest where
  project_id : String
  conversation_id : Option String
  message : String
  cluster_id : Option String
  deriving DecidableEq, Repr

/-- Modelled from the spec: the storage lookups `invoke_agent` performs
before streaming (`services/storage.py` is not among the sources).  Per
§6, `ProjectStore.get` either finds the project or reports it absent
(`projectExists`), `ConversationStore.get` returns the conversation row
or absent, and `ConversationStore.create(title)` returns a fresh
conversation with the given title, a storage-chosen id (`freshId`) and
null session token and cluster reference. -/
structure Env where
  projectExists : String → Bool
  getConversation : String → Option Conversation
  freshId : String

/-- What one call of `invoke_agent` produces: the frame sequence of the
response, the storage operations performed, whether the runtime was
invoked, and the resumption token passed to it. -/
structure InvokeResult where
  frames : List Frame
  ops : List StorageOp
  runtimeCalled : Bool
  resumeToken : Option String

/-- The `invoke_agent` endpoint (`server/routers/agent.py`, lines
56-241) as a pure function.  Missing project or missing (explicitly
supplied) conversation short-circuits through `create_error_stream` with
the source's error texts; otherwise the conversation is resolved — created
with the derived title when no id was supplied, the id being the one the
storage assigned — and the response is the `stream_and_store` stream,
with the runtime called once, resumed from the conversation's stored
session token. -/
def invoke_agent (env : Env) (body : InvokeAgentRequest)
    (events : List AgentEvent) (exc : Option String) (failAt : Option Nat) :
    InvokeResult :=
  if env.projectExists body.project_id = false then
    { frames := [.errorFrame ("Project not found: " ++ body.project_id)
                  (some "Please verify the project exists"), .done],
      ops := [], runtimeCalled := false, resumeToken := none }
  else
    match body.conversation_id with
    | none =>
        let title := body.message.take 50 ++
          (if body.message.length > 50 then "..." else "")
        let conversation : Conversation := ⟨env.freshId, title, none, none⟩
        let r := stream_and_store conversation.id body.message body.cluster_id
          body.project_id events exc failAt
        { frames := r.frames, ops := .createConversation title :: r.ops,
          runtimeCalled := true, resumeToken := conversation.sessionId }
    | some cid =>
        match env.getConversation cid with
        | none =>
            { frames := [.errorFrame ("Conversation not found: " ++ cid) (some ""),
                         .done],
              ops := [], runtimeCalled := false, resumeToken := none }
        | some conversation =>
            let r := stream_and_store cid body.message body.cluster_id
              body.project_id events exc failAt
            { frames := r.frames, ops := r.ops,
              runtimeCalled := true, resumeToken := conversation.sessionId }

/-- The conversation id the response stream is correlated to: the
explicitly supplied id when present, else the id the storage assigned to
the newly created conversation. -/
def resolvedId (env : Env) (body : InvokeAgentRequest) : String :=
  match body.conversation_id with
  | some cid => cid
  | none => env.freshId

/-- C7 counterexample: at the concrete unrecognized native message
`unknown "NewVariant"`, the normalizer yields no wire frame (the message
is dropped, first conjunct) but logs no warning either (second conjunct),
contradicting the claim that a warning is logged. -/
theorem C7_counterexample :
    (normalizeMessage (.unknown "NewVariant")).1 = [] ∧
    (normalizeMessage (.unknown "NewVariant")).2 = [] := by
  constructor <;> rfl

/-- C7 (amended): every native message whose variant is not in the
normalization table is dropped — it yields no wire event — and no warning
is logged; the same holds for an unrecognized content block inside an
assistant message.  (`normalizeMessage` is a total function, so the
dispatch never raises.) -/
theorem C7_unrecognized_dropped_silently (tag : String) :
    normalizeMessage (.unknown tag) = ([], []) ∧
    normalizeMessage (.assistantMsg [.unknownBlock tag]) = ([], []) := by
  constructor <;> rfl

/-- C7 witness: the amended theorem instantiated at a concrete tag. -/
theorem C7_witness :
    normalizeMessage (.unknown "SubagentMessage") = ([], []) :=
  (C7_unrecognized_dropped_silently "SubagentMessage").1

/-- One loop iteration appends exactly the per-event frames. -/
theorem handleEvent_frames (st : LoopState) (e : AgentEvent) :
    (handleEvent st e).frames = st.frames ++ framesOfEvent e := by
  cases e <;> simp [handleEvent, framesOfEvent] <;> split <;> rfl

/-- The transcript-buffer component of one loop iteration is `textStep`. -/
theorem handleEvent_finalText (st : LoopState) (e : AgentEvent) :
    (handleEvent st e).finalText = textStep st.finalText e := by
  cases e <;> simp [handleEvent, textStep] <;> split <;> rfl

/-- The error-message component of one loop iteration is `errStep`. -/
theorem handleEvent_errorMessage (st : LoopState) (e : AgentEvent) :
    (handleEvent st e).errorMessage = errStep st.errorMessage e := by
  cases e <;> simp [handleEvent, errStep] <;> split <;> rfl

/-- The session-candidate component of one loop iteration is `sessStep`. -/
theorem handleEvent_newSessionId (st : LoopState) (e : AgentEvent) :
    (handleEvent st e).newSessionId = sessStep st.newSessionId e := by
  cases e <;> simp [handleEvent, sessStep] <;> split <;> rfl

/-- The loop's transcript buffer is the `textStep` fold. -/
theorem runLoop_finalText (l : List AgentEvent) :
    ∀ st : LoopState, (runLoop st l).finalText = l.foldl textStep st.finalText := by
  induction l with
  | nil => intro st; rfl
  | cons e l ih =>
      intro st
      show (runLoop (handleEvent st e) l).finalText = _
      rw [ih, handleEvent_finalText]
      rfl

/-- The loop's error message is the `errStep` fold. -/
theorem runLoop_errorMessage (l : List AgentEvent) :
    ∀ st : LoopState, (runLoop st l).errorMessage = l.foldl errStep st.errorMessage := by
  induction l with
  | nil => intro st; rfl
  | cons e l ih =>
      intro st
      show (runLoop (handleEvent st e) l).errorMessage = _
      rw [ih, handleEvent_errorMessage]
      rfl

/-- The loop's session-token candidate is the `sessStep` fold. -/
theorem runLoop_newSessionId (l : List AgentEvent) :
    ∀ st : LoopState, (runLoop st l).newSessionId = l.foldl sessStep st.newSessionId := by
  induction l with
  | nil => intro st; rfl
  | cons e l ih =>
      intro st
      show (runLoop (handleEvent st e) l).newSessionId = _
      rw [ih, handleEvent_newSessionId]
      rfl

/-- Frames emitted for a single event are never `conversation.created`,
`stream.completed` or the terminal sentinel. -/
theorem framesOfEvent_safe (e : AgentEvent) (f : Frame) (h : f ∈ framesOfEvent e) :
    isConvCreatedFrame f = false ∧ isStreamCompletedFrame f = false ∧
      isDoneFrame f = false := by
  cases e <;> simp [framesOfEvent] at h <;> subst h <;>
    exact ⟨rfl, rfl, rfl⟩

/-- Every frame the loop emits is either inherited from the entry state or
is one of the per-event frames (hence never a terminal-pair frame or a
`conversation.created`). -/
theorem runLoop_frames_safe (l : List AgentEvent) :
    ∀ st : LoopState, ∀ f ∈ (runLoop st l).frames,
      f ∈ st.frames ∨ (isConvCreatedFrame f = false ∧
        isStreamCompletedFrame f = false ∧ isDoneFrame f = false) := by
  induction l with
  | nil => intro st f hf; exact Or.inl hf
  | cons e l ih =>
      intro st f hf
      rcases ih (handleEvent st e) f hf with h | h
      · rw [handleEvent_frames] at h
        rcases List.mem_append.mp h with h | h
        · exact Or.inl h
        · exact Or.inr (framesOfEvent_safe e f h)
      · exact Or.inr h

/-- The `errStep` fold is `some` exactly when the accumulator already was
or some error event occurs in the list. -/
theorem errFold_isSome (l : List AgentEvent) :
    ∀ a : Option String, (l.foldl errStep a).isSome = (a.isSome || l.any isErrorEv) := by
  induction l with
  | nil => intro a; simp
  | cons e l ih =>
      intro a
      show (l.foldl errStep (errStep a e)).isSome = _
      rw [ih]
      cases e <;> simp [errStep, isErrorEv] <;> cases a <;> simp

/-- The latest error message exists exactly when an error occurred. -/
theorem lastErrMsg_isSome (events : List AgentEvent) (exc : Option String) :
    (lastErrMsg events exc).isSome = errOccurred events exc := by
  cases exc with
  | none => simp [lastErrMsg, errOccurred, errFold_isSome]
  | some s => simp [lastErrMsg, errOccurred]

/-- A truthy session-token candidate survives any stretch of the stream
containing no result event: init capture is guarded by the candidate
being falsy, and nothing else writes it. -/
theorem sessFold_no_result (l : List AgentEvent) :
    ∀ a : Option String, (∀ e ∈ l, isResultEv e = false) → optTruthy a = true →
      l.foldl sessStep a = a := by
  induction l with
  | nil => intro a _ _; rfl
  | cons e l ih =>
      intro a h ht
      have he := h e (List.mem_cons_self e l)
      have hrest : ∀ e' ∈ l, isResultEv e' = false := fun e' h' => h e' (List.mem_cons_of_mem e h')
      have hstep : sessStep a e = a := by
        cases e with
        | result sid isErr => simp [isResultEv] at he
        | system subtype data =>
            simp only [sessStep]
            rw [if_neg]
            rintro ⟨-, -, hfalse⟩
            rw [ht] at hfalse
            exact Bool.noConfusion hfalse
        | _ => rfl
      show l.foldl sessStep (sessStep a e) = a
      rw [hstep]
      exact ih a hrest ht

/-- The session-token candidate is unchanged by any stretch of the stream
containing neither result events nor system/init events. -/
theorem sessFold_untouched (l : List AgentEvent) :
    ∀ a : Option String,
      (∀ e ∈ l, isResultEv e = false ∧ isInitSystemEv e = false) →
      l.foldl sessStep a = a := by
  induction l with
  | nil => intro a _; rfl
  | cons e l ih =>
      intro a h
      have he := h e (List.mem_cons_self e l)
      have hrest : ∀ e' ∈ l, isResultEv e' = false ∧ isInitSystemEv e' = false :=
        fun e' h' => h e' (List.mem_cons_of_mem e h')
      have hstep : sessStep a e = a := by
        cases e with
        | result sid isErr => simp [isResultEv] at he
        | system subtype data =>
            have : ¬ subtype = "init" := by
              have := he.2
              simpa [isInitSystemEv] using this
            simp only [sessStep]
            rw [if_neg]
            rintro ⟨hinit, -, -⟩
            exact this hinit
        | _ => rfl
      show l.foldl sessStep (sessStep a e) = a
      rw [hstep]
      exact ih a hrest

/-- With no injected persistence failure, the guarded block performs
exactly the operations whose guards hold, in order. -/
theorem runOps_none (cands : List (Bool × StorageOp)) :
    ∀ k : Nat, runOps none k cands = (cands.filter (fun p => p.1)).map Prod.snd := by
  induction cands with
  | nil => intro k; rfl
  | cons c rest ih =>
      intro k
      obtain ⟨cond, op⟩ := c
      cases cond with
      | true => simp [runOps, ih (k + 1)]
      | false => simp [runOps, ih k]

/-- Every operation the guarded block performs is one of the candidates,
with its guard true. -/
theorem runOps_mem (cands : List (Bool × StorageOp)) :
    ∀ (failAt : Option Nat) (k : Nat) (op : StorageOp),
      op ∈ runOps failAt k cands → (true, op) ∈ cands := by
  induction cands with
  | nil => intro failAt k op h; simp [runOps] at h
  | cons c rest ih =>
      intro failAt k op h
      obtain ⟨cond, o⟩ := c
      cases cond with
      | true =>
          by_cases hf : failAt = some k
          · simp [runOps, hf] at h
          · simp only [runOps, if_true, if_neg hf] at h
            rcases List.mem_cons.mp h with h | h
            · subst h; exact List.mem_cons_self _ _
            · exact List.mem_cons_of_mem _ (ih failAt (k + 1) op h)
      | false =>
          simp only [runOps, Bool.false_eq_true, if_false] at h
          exact List.mem_cons_of_mem _ (ih failAt k op h)

/-- Applying a concatenated trace applies the pieces in order. -/
theorem applyOps_append (s : ConvStore) (l1 l2 : List StorageOp) :
    applyOps s (l1 ++ l2) = applyOps (applyOps s l1) l2 := by
  simp [applyOps, List.foldl_append]

/-- No storage operation ever makes a set session token unset. -/
theorem applyOps_sessionId_isSome (ops : List StorageOp) :
    ∀ s : ConvStore, s.sessionId.isSome = true →
      ((applyOps s ops).sessionId).isSome = true := by
  induction ops with
  | nil => intro s h; exact h
  | cons op rest ih =>
      intro s h
      show ((applyOps (applyOp s op) rest).sessionId).isSome = true
      apply ih
      cases op <;> simp [applyOp, h]

/-- Shape of the frame sequence one streaming invocation emits: the
`conversation.created` frame, then the per-event frames (plus the
exception error frame when the iteration raised), then the
`stream.completed` frame carrying whether an error message was recorded,
then the terminal sentinel — for every injected persistence failure. -/
theorem stream_and_store_frames (conversationId message : String)
    (clusterId : Option String) (projectId : String) (events : List AgentEvent)
    (exc : Option String) (failAt : Option Nat) :
    (stream_and_store conversationId message clusterId projectId events exc failAt).frames =
      Frame.conversationCreated conversationId ::
        ((runLoop initLoopState events).frames ++ excFrames exc) ++
        [Frame.streamCompleted (lastErrMsg events exc).isSome, Frame.done] := by
  cases exc with
  | none =>
      simp [stream_and_store, excFrames, lastErrMsg, runLoop_errorMessage,
        initLoopState]
  | some s =>
      simp [stream_and_store, excFrames, lastErrMsg]

/-- Shape of the storage-operation trace when persistence does not fail:
the user message, then — each guarded by its truthiness test — the
assistant message, the session-token update and the cluster update, then
the backup signal. -/
theorem stream_and_store_ops (conversationId message : String)
    (clusterId : Option String) (projectId : String) (events : List AgentEvent)
    (exc : Option String) :
    (stream_and_store conversationId message clusterId projectId events exc none).ops =
      StorageOp.addMessage conversationId "user" message none ::
      ((if strTruthy (accumText events) || optTruthy (lastErrMsg events exc) then
          [StorageOp.addMessage conversationId "assistant"
            (if strTruthy (accumText events) then accumText events
             else "Error: " ++ (lastErrMsg events exc).getD "")
            (some (lastErrMsg events exc).isSome)]
        else []) ++
       ((if optTruthy (sessionCandidate events) then
          [StorageOp.updateSessionId conversationId ((sessionCandidate events).getD "")]
        else []) ++
       ((if optTruthy clusterId then
          [StorageOp.updateClusterId conversationId (clusterId.getD "")]
        else []) ++
       [StorageOp.markForBackup projectId]))) := by
  cases exc with
  | none =>
      simp only [stream_and_store, runOps_none, accumText, lastErrMsg,
        sessionCandidate, runLoop_finalText, runLoop_errorMessage,
        runLoop_newSessionId, initLoopState]
      cases hA : strTruthy (List.foldl textStep "" events) ||
          optTruthy (List.foldl errStep none events) <;>
        cases hS : optTruthy (List.foldl sessStep none events) <;>
        cases hC : optTruthy clusterId <;>
        simp [hA, hS, hC]
  | some s =>
      simp only [stream_and_store, runOps_none, accumText, lastErrMsg,
        sessionCandidate, runLoop_finalText, runLoop_errorMessage,
        runLoop_newSessionId, initLoopState]
      cases hA : strTruthy (List.foldl textStep "" events) ||
          optTruthy (some s) <;>
        cases hS : optTruthy (List.foldl sessStep none events) <;>
        cases hC : optTruthy clusterId <;>
        simp [hA, hS, hC]

/-- Frames following the `conversation.created` frame of a streaming
response never include another `conversation.created`. -/
theorem stream_tail_no_convCreated (events : List AgentEvent) (exc : Option String)
    (b : Bool) (f : Frame)
    (hf : f ∈ ((runLoop initLoopState events).frames ++ excFrames exc) ++
      [Frame.streamCompleted b, Frame.done]) :
    isConvCreatedFrame f = false := by
  rcases List.mem_append.mp hf with h | h
  · rcases List.mem_append.mp h with h | h
    · rcases runLoop_frames_safe events initLoopState f h with h' | h'
      · simp [initLoopState] at h'
      · exact h'.1
    · cases exc with
      | none => simp [excFrames] at h
      | some s =>
          simp [excFrames] at h
          subst h
          rfl
  · rcases List.mem_cons.mp h with h | h
    · subst h; rfl
    · simp at h; subst h; rfl

/-- Running the guarded block past a head operation whose guard is true
and which does not fail. -/
theorem runOps_head_true (failAt : Option Nat) (k : Nat) (op : StorageOp)
    (rest : List (Bool × StorageOp)) (h : failAt ≠ some k) :
    runOps failAt k ((true, op) :: rest) = op :: runOps failAt (k + 1) rest := by
  simp [runOps, h]

/-- The guarded block performs no operation satisfying a predicate that
holds for none of the candidates. -/
theorem runOps_filter_nil (p : StorageOp → Bool) (failAt : Option Nat) (k : Nat)
    (cands : List (Bool × StorageOp)) (h : ∀ q ∈ cands, p q.2 = false) :
    (runOps failAt k cands).filter p = [] := by
  rw [List.filter_eq_nil_iff]
  intro a ha
  have hmem := runOps_mem cands failAt k a ha
  have := h (true, a) hmem
  simp [this]

/-- The conversation's stored session token after a streaming invocation
with no persistence failure: overwritten with the accumulated candidate
when that candidate is truthy, untouched otherwise. -/
theorem stored_sessionId (conversationId message : String) (clusterId : Option String)
    (projectId : String) (events : List AgentEvent) (exc : Option String)
    (s : ConvStore) :
    (applyOps s (stream_and_store conversationId message clusterId projectId
        events exc none).ops).sessionId =
      (if optTruthy (sessionCandidate events) then
        some ((sessionCandidate events).getD "")
      else s.sessionId) := by
  rw [stream_and_store_ops]
  cases hA : strTruthy (accumText events) || optTruthy (lastErrMsg events exc) <;>
    cases hS : optTruthy (sessionCandidate events) <;>
    cases hC : optTruthy clusterId <;>
    simp [hA, hS, hC, applyOps, applyOp]

/-- A value equal to the forced unwrapping of a truthy optional string is
non-empty. -/
theorem nonempty_of_truthy (n : Option String) (t : String)
    (htr : true = optTruthy n) (ht : t = n.getD "") : t ≠ "" := by
  cases n with
  | none => simp [optTruthy] at htr
  | some u =>
      have hu : u ≠ "" := by
        have h := htr.symm
        simpa [optTruthy] using h
      rw [ht]
      simpa using hu

/-- Any session-token update a streaming invocation performs — under any
persistence-failure pattern — writes a non-empty token. -/
theorem stream_update_nonempty (conversationId message : String)
    (clusterId : Option String) (projectId : String) (events : List AgentEvent)
    (exc : Option String) (failAt : Option Nat) (c t : String)
    (hmem : StorageOp.updateSessionId c t ∈
      (stream_and_store conversationId message clusterId projectId
        events exc failAt).ops) : t ≠ "" := by
  simp only [stream_and_store] at hmem
  have h2 := runOps_mem _ _ _ _ hmem
  simp only [List.mem_cons, List.not_mem_nil, or_false, Prod.mk.injEq] at h2
  rcases h2 with ⟨-, h⟩ | ⟨-, h⟩ | ⟨htr, h⟩ | ⟨-, h⟩ | ⟨-, h⟩
  · exact absurd h (by simp)
  · exact absurd h (by simp)
  · exact nonempty_of_truthy _ _ htr (StorageOp.updateSessionId.inj h).2
  · exact absurd h (by simp)
  · exact absurd h (by simp)

/-- C4: every invocation that reaches the streaming phase emits a frame
sequence ending with a `stream.completed` frame whose error indicator is
exactly whether any error occurred during the turn, followed by exactly
one terminal sentinel — and no earlier frame is a `stream.completed` or a
sentinel — for every injected persistence failure `failAt`, so a
persistence failure neither prevents nor duplicates the final pair. -/
theorem C4_completion_pair (conversationId message : String)
    (clusterId : Option String) (projectId : String) (events : List AgentEvent)
    (exc : Option String) (failAt : Option Nat) :
    ∃ pre : List Frame,
      (stream_and_store conversationId message clusterId projectId
        events exc failAt).frames =
        pre ++ [Frame.streamCompleted (errOccurred events exc), Frame.done] ∧
      ∀ f ∈ pre, isStreamCompletedFrame f = false ∧ isDoneFrame f = false := by
  refine ⟨Frame.conversationCreated conversationId ::
    ((runLoop initLoopState events).frames ++ excFrames exc), ?_, ?_⟩
  · rw [stream_and_store_frames, ← lastErrMsg_isSome]
  · intro f hf
    rcases List.mem_cons.mp hf with h | h
    · subst h; exact ⟨rfl, rfl⟩
    · rcases List.mem_append.mp h with h | h
      · rcases runLoop_frames_safe events initLoopState f h with h' | h'
        · simp [initLoopState] at h'
        · exact ⟨h'.2.1, h'.2.2⟩
      · cases exc with
        | none => simp [excFrames] at h
        | some s =>
            simp [excFrames] at h
            subst h
            exact ⟨rfl, rfl⟩

/-- C5: every invocation that reaches the streaming phase — the project
resolves and any explicitly supplied conversation id resolves — emits a
`conversation.created` frame carrying the resolved conversation id as the
very first frame of the stream, and no later frame is a
`conversation.created`; this includes the case where the conversation id
was omitted and a fresh conversation was created. -/
theorem C5_created_frame_first (env : Env) (body : InvokeAgentRequest)
    (events : List AgentEvent) (exc : Option String) (failAt : Option Nat)
    (hproj : env.projectExists body.project_id = true)
    (hconv : ∀ c, body.conversation_id = some c →
      (env.getConversation c).isSome = true) :
    ∃ rest : List Frame,
      (invoke_agent env body events exc failAt).frames =
        Frame.conversationCreated (resolvedId env body) :: rest ∧
      ∀ f ∈ rest, isConvCreatedFrame f = false := by
  cases hc : body.conversation_id with
  | none =>
      refine ⟨((runLoop initLoopState events).frames ++ excFrames exc) ++
        [Frame.streamCompleted (lastErrMsg events exc).isSome, Frame.done], ?_, ?_⟩
      · simp only [invoke_agent, hproj, hc]
        rw [if_neg (by simp)]
        rw [stream_and_store_frames]
        simp [resolvedId, hc]
      · intro f hf
        exact stream_tail_no_convCreated events exc _ f hf
  | some c =>
      have := hconv c hc
      obtain ⟨conv, hconv'⟩ := Option.isSome_iff_exists.mp this
      refine ⟨((runLoop initLoopState events).frames ++ excFrames exc) ++
        [Frame.streamCompleted (lastErrMsg events exc).isSome, Frame.done], ?_, ?_⟩
      · simp only [invoke_agent, hproj, hc, hconv']
        rw [if_neg (by simp)]
        rw [stream_and_store_frames]
        simp [resolvedId, hc]
      · intro f hf
        exact stream_tail_no_convCreated events exc _ f hf

/-- C5 witness: the theorem at a concrete environment and request with an
explicitly supplied, resolving conversation id. -/
theorem C5_witness :
    ∃ rest : List Frame,
      (invoke_agent ⟨fun _ => true, fun _ => some ⟨"c77", "t", none, none⟩, "fresh"⟩
        ⟨"p1", some "c77", "hello", none⟩ [] none none).frames =
        Frame.conversationCreated
          (resolvedId ⟨fun _ => true, fun _ => some ⟨"c77", "t", none, none⟩, "fresh"⟩
            ⟨"p1", some "c77", "hello", none⟩) :: rest ∧
      ∀ f ∈ rest, isConvCreatedFrame f = false :=
  C5_created_frame_first
    ⟨fun _ => true, fun _ => some ⟨"c77", "t", none, none⟩, "fresh"⟩
    ⟨"p1", some "c77", "hello", none⟩ [] none none rfl
    (fun c hc => by cases hc; rfl)

/-- C2: whenever the project does not resolve, or a conversation id was
explicitly supplied and does not resolve, the response is exactly one
error frame followed by the terminal sentinel — hence no
`conversation.created` frame — the runtime is not called, and no storage
operation is performed. -/
theorem C2_error_only_response (env : Env) (body : InvokeAgentRequest)
    (events : List AgentEvent) (exc : Option String) (failAt : Option Nat)
    (h : env.projectExists body.project_id = false ∨
      ∃ c, body.conversation_id = some c ∧ env.getConversation c = none) :
    ∃ e m, (invoke_agent env body events exc failAt).frames =
        [Frame.errorFrame e (some m), Frame.done] ∧
      (invoke_agent env body events exc failAt).ops = [] ∧
      (invoke_agent env body events exc failAt).runtimeCalled = false := by
  rcases h with hp | ⟨c, hc, hnone⟩
  · exact ⟨"Project not found: " ++ body.project_id,
      "Please verify the project exists", by simp [invoke_agent, hp], by
        simp [invoke_agent, hp], by simp [invoke_agent, hp]⟩
  · cases hp : env.projectExists body.project_id with
    | false =>
        exact ⟨"Project not found: " ++ body.project_id,
          "Please verify the project exists", by simp [invoke_agent, hp], by
            simp [invoke_agent, hp], by simp [invoke_agent, hp]⟩
    | true =>
        refine ⟨"Conversation not found: " ++ c, "", ?_, ?_, ?_⟩ <;>
          · simp only [invoke_agent, hp, hc, hnone]
            rw [if_neg (by simp)]

/-- C2 witness: the theorem at a concrete environment where the project
does not resolve. -/
theorem C2_witness :
    ∃ e m, (invoke_agent ⟨fun _ => false, fun _ => none, "f"⟩
        ⟨"p0", none, "hi", none⟩ [] none none).frames =
        [Frame.errorFrame e (some m), Frame.done] ∧
      (invoke_agent ⟨fun _ => false, fun _ => none, "f"⟩
        ⟨"p0", none, "hi", none⟩ [] none none).ops = [] ∧
      (invoke_agent ⟨fun _ => false, fun _ => none, "f"⟩
        ⟨"p0", none, "hi", none⟩ [] none none).runtimeCalled = false :=
  C2_error_only_response ⟨fun _ => false, fun _ => none, "f"⟩
    ⟨"p0", none, "hi", none⟩ [] none none (Or.inl rfl)

/-- C6: every invocation that reaches the streaming phase persists
exactly one user-role message, with content equal to the original input
and no error-flag argument, for every event sequence, every mid-sequence
exception and every persistence-failure pattern that does not make the
user-message write itself raise. -/
theorem C6_one_user_message (conversationId message : String)
    (clusterId : Option String) (projectId : String) (events : List AgentEvent)
    (exc : Option String) (failAt : Option Nat) (h : failAt ≠ some 0) :
    (stream_and_store conversationId message clusterId projectId
      events exc failAt).ops.filter isUserAddOp =
      [StorageOp.addMessage conversationId "user" message none] := by
  simp only [stream_and_store]
  rw [runOps_head_true _ _ _ _ h, List.filter_cons]
  have hu : isUserAddOp (StorageOp.addMessage conversationId "user" message none) = true := by
    simp [isUserAddOp]
  rw [if_pos (by simp [hu])]
  rw [runOps_filter_nil]
  intro q hq
  simp only [List.mem_cons, List.not_mem_nil, or_false] at hq
  rcases hq with hq | hq | hq | hq <;> subst hq <;> simp [isUserAddOp]

/-- C6 witness: the theorem at a concrete invocation whose runtime call
failed before any event. -/
theorem C6_witness :
    (stream_and_store "c1" "what is 2+2" none "p1" [] (some "boom") none).ops.filter
      isUserAddOp = [StorageOp.addMessage "c1" "user" "what is 2+2" none] :=
  C6_one_user_message "c1" "what is 2+2" none "p1" [] (some "boom") none
    (by simp)

/-- C3 counterexample: at the invocation consuming the single event
sequence `[error '']` — an error event whose message text is the empty
string — an error occurred (the turn's error indicator is set), the
transcript buffer is empty, and yet no assistant-role message is
persisted, contradicting the claimed "persisted iff the buffer is
non-empty or an error occurred". -/
theorem C3_counterexample :
    errOccurred [AgentEvent.error (some "")] none = true ∧
    accumText [AgentEvent.error (some "")] = "" ∧
    (stream_and_store "c" "m" none "p" [AgentEvent.error (some "")] none
      none).ops.filter isAssistantAddOp = [] := by
  refine ⟨rfl, rfl, ?_⟩
  rw [stream_and_store_ops]
  simp [isAssistantAddOp, accumText, lastErrMsg, sessionCandidate, textStep,
    errStep, sessStep, strTruthy, optTruthy]

/-- C3 (amended): for every invocation that reaches the streaming phase
and whose persistence does not fail, an assistant-role message is
persisted iff the accumulated text buffer is non-empty or a non-empty
error message was recorded; when persisted, its content is the buffer if
the buffer is non-empty else `"Error: "` followed by the error message,
and its error flag is set exactly when an error message was recorded. -/
theorem C3_assistant_message (conversationId message : String)
    (clusterId : Option String) (projectId : String) (events : List AgentEvent)
    (exc : Option String) :
    (stream_and_store conversationId message clusterId projectId
      events exc none).ops.filter isAssistantAddOp =
      (if strTruthy (accumText events) || optTruthy (lastErrMsg events exc) then
        [StorageOp.addMessage conversationId "assistant"
          (if strTruthy (accumText events) then accumText events
           else "Error: " ++ (lastErrMsg events exc).getD "")
          (some (lastErrMsg events exc).isSome)]
      else []) := by
  rw [stream_and_store_ops]
  cases hA : strTruthy (accumText events) || optTruthy (lastErrMsg events exc) <;>
    cases hS : optTruthy (sessionCandidate events) <;>
    cases hC : optTruthy clusterId <;>
    simp [hA, hS, hC, isAssistantAddOp]

/-- The session-token updates a no-failure streaming invocation performs:
exactly one, with the accumulated candidate, when the candidate is
truthy; none otherwise. -/
theorem stream_update_filter (conversationId message : String)
    (clusterId : Option String) (projectId : String) (events : List AgentEvent)
    (exc : Option String) :
    (stream_and_store conversationId message clusterId projectId
      events exc none).ops.filter isUpdateSessionOp =
      (if optTruthy (sessionCandidate events) then
        [StorageOp.updateSessionId conversationId ((sessionCandidate events).getD "")]
      else []) := by
  rw [stream_and_store_ops]
  cases hA : strTruthy (accumText events) || optTruthy (lastErrMsg events exc) <;>
    cases hS : optTruthy (sessionCandidate events) <;>
    cases hC : optTruthy clusterId <;>
    simp [hA, hS, hC, isUpdateSessionOp]

/-- C1 (amended): session-token resolution.  First conjunct: when a token
candidate T1 is captured from a system/init message (no truthy candidate
before it, truthy data dict bearing T1) and a terminal result message
later carries a token T2, the token finally stored on the conversation is
T2, whatever comes before the result and whatever non-result events
follow it.  Second conjunct: when T1 is observed and no result message at
all follows the init — not merely no result token — the stored token
is T1.  (A result message bearing a null token instead discards the
candidate; see the counterexample.) -/
theorem C1_token_resolution (conversationId message : String)
    (clusterId : Option String) (projectId : String)
    (pre mid mid2 post : List AgentEvent) (exc exc2 : Option String)
    (data : List (String × String)) (T1 T2 : String) (isErr : Bool)
    (s : ConvStore)
    (hpre : optTruthy (pre.foldl sessStep none) = false)
    (hdata : dictGet data "session_id" = some T1)
    (hT1 : T1 ≠ "") (hT2 : T2 ≠ "")
    (hmid2 : ∀ e ∈ mid2, isResultEv e = false)
    (hpost : ∀ e ∈ post, isResultEv e = false) :
    (applyOps s (stream_and_store conversationId message clusterId projectId
        (pre ++ [AgentEvent.system "init" (some data)] ++ mid ++
          [AgentEvent.result (some T2) isErr] ++ post) exc none).ops).sessionId
      = some T2 ∧
    (applyOps s (stream_and_store conversationId message clusterId projectId
        (pre ++ [AgentEvent.system "init" (some data)] ++ mid2) exc2
        none).ops).sessionId = some T1 := by
  constructor
  · rw [stored_sessionId]
    have h1 : sessionCandidate (pre ++ [AgentEvent.system "init" (some data)] ++
        mid ++ [AgentEvent.result (some T2) isErr] ++ post) = some T2 := by
      simp only [sessionCandidate, List.foldl_append, List.foldl_cons,
        List.foldl_nil]
      rw [show ∀ x, sessStep x (AgentEvent.result (some T2) isErr) = some T2 from
        fun _ => rfl]
      exact sessFold_no_result post (some T2) hpost (by simp [optTruthy, hT2])
    rw [h1]
    simp [optTruthy, hT2]
  · rw [stored_sessionId]
    have hd : data ≠ [] := by
      intro hnil
      rw [hnil] at hdata
      simp [dictGet] at hdata
    have h0 : sessStep (pre.foldl sessStep none)
        (AgentEvent.system "init" (some data)) = some T1 := by
      have hred : sessStep (pre.foldl sessStep none)
          (AgentEvent.system "init" (some data)) =
          if ("init" : String) = "init" ∧ dataTruthy (some data) = true ∧
              optTruthy (pre.foldl sessStep none) = false
          then dictGet ((some data : Option (List (String × String))).getD [])
            "session_id"
          else pre.foldl sessStep none := rfl
      rw [hred, if_pos ⟨rfl, by simp [dataTruthy, hd], hpre⟩]
      exact hdata
    have h1 : sessionCandidate
        (pre ++ [AgentEvent.system "init" (some data)] ++ mid2) = some T1 := by
      simp only [sessionCandidate, List.foldl_append, List.foldl_cons,
        List.foldl_nil]
      rw [h0]
      exact sessFold_no_result mid2 (some T1) hmid2 (by simp [optTruthy, hT1])
    rw [h1]
    simp [optTruthy, hT1]

/-- C1 witness: the theorem at a concrete init token, result token and
conversation store. -/
theorem C1_witness :
    (applyOps ⟨none, none, [], []⟩ (stream_and_store "c" "m" none "p"
        ([] ++ [AgentEvent.system "init" (some [("session_id", "t1")])] ++ [] ++
          [AgentEvent.result (some "t2") false] ++ []) none none).ops).sessionId
      = some "t2" ∧
    (applyOps ⟨none, none, [], []⟩ (stream_and_store "c" "m" none "p"
        ([] ++ [AgentEvent.system "init" (some [("session_id", "t1")])] ++ [])
        none none).ops).sessionId = some "t1" :=
  C1_token_resolution "c" "m" none "p" [] [] [] [] none none
    [("session_id", "t1")] "t1" "t2" false ⟨none, none, [], []⟩
    rfl (by decide) (by decide) (by decide) (by simp) (by simp)

/-- C10: when a token candidate was captured from a system/init message
but the terminal result message carries a null session id, the
init-captured candidate is discarded: no session-token update is
performed and the conversation's stored token keeps its prior value
(provided nothing after that result re-captures: no further result and no
further init events). -/
theorem C10_null_result_discards (conversationId message : String)
    (clusterId : Option String) (projectId : String)
    (pre mid post : List AgentEvent) (exc : Option String)
    (data : List (String × String)) (T1 : String) (isErr : Bool) (s : ConvStore)
    (hpre : optTruthy (pre.foldl sessStep none) = false)
    (hdata : dictGet data "session_id" = some T1) (hT1 : T1 ≠ "")
    (hpost : ∀ e ∈ post, isResultEv e = false ∧ isInitSystemEv e = false) :
    (stream_and_store conversationId message clusterId projectId
        (pre ++ [AgentEvent.system "init" (some data)] ++ mid ++
          [AgentEvent.result none isErr] ++ post) exc none).ops.filter
        isUpdateSessionOp = [] ∧
    (applyOps s (stream_and_store conversationId message clusterId projectId
        (pre ++ [AgentEvent.system "init" (some data)] ++ mid ++
          [AgentEvent.result none isErr] ++ post) exc none).ops).sessionId
      = s.sessionId := by
  have h1 : sessionCandidate (pre ++ [AgentEvent.system "init" (some data)] ++
      mid ++ [AgentEvent.result none isErr] ++ post) = none := by
    simp only [sessionCandidate, List.foldl_append, List.foldl_cons,
      List.foldl_nil]
    rw [show ∀ x, sessStep x (AgentEvent.result none isErr) = none from
      fun _ => rfl]
    exact sessFold_untouched post none hpost
  constructor
  · rw [stream_update_filter, h1]
    simp [optTruthy]
  · rw [stored_sessionId, h1]
    simp [optTruthy]

/-- C10 witness: the theorem at a concrete captured token, a result with
null session id, and a store whose prior token is kept. -/
theorem C10_witness :
    (stream_and_store "c" "m" none "p"
        ([] ++ [AgentEvent.system "init" (some [("session_id", "t1")])] ++ [] ++
          [AgentEvent.result none true] ++ []) none none).ops.filter
        isUpdateSessionOp = [] ∧
    (applyOps ⟨some "old", none, [], []⟩ (stream_and_store "c" "m" none "p"
        ([] ++ [AgentEvent.system "init" (some [("session_id", "t1")])] ++ [] ++
          [AgentEvent.result none true] ++ []) none none).ops).sessionId
      = (⟨some "old", none, [], []⟩ : ConvStore).sessionId :=
  C10_null_result_discards "c" "m" none "p" [] [] [] none
    [("session_id", "t1")] "t1" true ⟨some "old", none, [], []⟩
    rfl (by decide) (by decide) (by simp)

/-- C8: every invocation that reaches the streaming phase, once its
persistence block completes without failing, signals the backup
collaborator that the project changed — the last storage operation of the
trace is the (enqueue-only, never awaited) backup mark, and the project id
ends up on the backup queue — including when the runtime call failed. -/
theorem C8_backup_signal (conversationId message : String)
    (clusterId : Option String) (projectId : String) (events : List AgentEvent)
    (exc : Option String) (s : ConvStore) :
    (∃ pre, (stream_and_store conversationId message clusterId projectId
        events exc none).ops = pre ++ [StorageOp.markForBackup projectId]) ∧
    projectId ∈ (applyOps s (stream_and_store conversationId message clusterId
      projectId events exc none).ops).backupQueue := by
  constructor
  · refine ⟨StorageOp.addMessage conversationId "user" message none ::
      ((if strTruthy (accumText events) || optTruthy (lastErrMsg events exc) then
          [StorageOp.addMessage conversationId "assistant"
            (if strTruthy (accumText events) then accumText events
             else "Error: " ++ (lastErrMsg events exc).getD "")
            (some (lastErrMsg events exc).isSome)]
        else []) ++
       ((if optTruthy (sessionCandidate events) then
          [StorageOp.updateSessionId conversationId
            ((sessionCandidate events).getD "")]
        else []) ++
       (if optTruthy clusterId then
          [StorageOp.updateClusterId conversationId (clusterId.getD "")]
        else []))), ?_⟩
    rw [stream_and_store_ops]
    simp
  · rw [stream_and_store_ops]
    cases hA : strTruthy (accumText events) || optTruthy (lastErrMsg events exc) <;>
      cases hS : optTruthy (sessionCandidate events) <;>
      cases hC : optTruthy clusterId <;>
      simp [hA, hS, hC, applyOps, applyOp]

/-- C9: the conversation's stored session token is never cleared: every
session-token update any invocation performs writes a non-empty token, and
once the stored token is non-null, it stays non-null through the whole
trace of any invocation. -/
theorem C9_token_never_cleared (env : Env) (body : InvokeAgentRequest)
    (events : List AgentEvent) (exc : Option String) (failAt : Option Nat)
    (s : ConvStore) (s0 : String) (h : s.sessionId = some s0) :
    (∀ c t, StorageOp.updateSessionId c t ∈
        (invoke_agent env body events exc failAt).ops → t ≠ "") ∧
    (applyOps s (invoke_agent env body events exc failAt).ops).sessionId ≠
      none := by
  constructor
  · intro c t hmem
    by_cases hp : env.projectExists body.project_id = false
    · simp [invoke_agent, hp] at hmem
    · cases hc : body.conversation_id with
      | none =>
          simp only [invoke_agent, if_neg hp, hc, List.mem_cons] at hmem
          rcases hmem with hmem | hmem
          · exact absurd hmem (by simp)
          · exact stream_update_nonempty _ _ _ _ _ _ _ _ _ hmem
      | some cid =>
          cases hg : env.getConversation cid with
          | none => simp [invoke_agent, if_neg hp, hc, hg] at hmem
          | some conv =>
              simp only [invoke_agent, if_neg hp, hc, hg] at hmem
              exact stream_update_nonempty _ _ _ _ _ _ _ _ _ hmem
  · apply Option.ne_none_iff_isSome.mpr
    apply applyOps_sessionId_isSome
    rw [h]
    rfl

/-- C9 witness: the theorem at a concrete store whose token is set. -/
theorem C9_witness :
    (applyOps ⟨some "tok", none, [], []⟩ (invoke_agent
        ⟨fun _ => true, fun _ => none, "f"⟩ ⟨"p", none, "m", none⟩
        [] none none).ops).sessionId ≠ none :=
  (C9_token_never_cleared ⟨fun _ => true, fun _ => none, "f"⟩
    ⟨"p", none, "m", none⟩ [] none none ⟨some "tok", none, [], []⟩ "tok" rfl).2

/-- C1 counterexample: the claim's second branch fails when "no result
token" arises from a terminal result message bearing a null session id
rather than from the absence of a result message.  At the concrete
stream `[system/init {session_id: tok1}, result(null)]` only the token
tok1 is ever observed, yet no session-token update is performed and the
conversation's stored token stays `none` — not tok1: the result handler
overwrites the init-captured candidate with the null id and the
truthiness guard then skips the update. -/
theorem C1_counterexample :
    (stream_and_store "c" "m" none "p"
        [AgentEvent.system "init" (some [("session_id", "tok1")]),
         AgentEvent.result none false] none none).ops.filter
        isUpdateSessionOp = [] ∧
    (applyOps ⟨none, none, [], []⟩ (stream_and_store "c" "m" none "p"
        [AgentEvent.system "init" (some [("session_id", "tok1")]),
         AgentEvent.result none false] none none).ops).sessionId = none := by
  constructor <;> rfl
